import Mathlib

/-!
Shallow embedding of `src/clevo_fan_control.cpp` (clevo-fancontrol).

Machine integers (`int32_t`) are modelled as `ℤ`; every value flowing
through the modelled functions is small (bytes, percentages, temperatures),
so 32-bit overflow cannot occur on the modelled domain and no wrap-around
is inserted.  C integer division truncates toward zero, which is `Int.tdiv`.
-/

namespace ClevoFan

/-- Extracts bit `flag` of `data`, as in the C expression `(data >> flag) & 0x1`
(from `ec_io_wait`, line 61). -/
def extract_flag (data flag : ℕ) : ℕ :=
  data / 2 ^ flag % 2

/-- Result of the busy-poll `ec_io_wait`; `polls` counts how many times the
status port was read (`inb`) before returning. -/
inductive WaitResult where
  | ok (polls : ℕ) : WaitResult
  | timedOut (polls : ℕ) : WaitResult
deriving DecidableEq

/-- The `while (true)` loop of `ec_io_wait` (lines 59-75).  `reads i` is the
byte returned by the `i`-th `inb(port)`.  The C loop keeps `repeat_count`
(failed polls so far) and times out when it reaches 100; here `fuel`
is the remaining budget `100 - repeat_count`, so the recursion is structural.
The `fuel = 0` base case is unreachable from `ec_io_wait`, which starts
with `fuel = 100`. -/
def ec_io_wait_go (reads : ℕ → ℕ) (flag value : ℕ) : ℕ → ℕ → WaitResult
  | i, 0 => WaitResult.timedOut i
  | i, fuel + 1 =>
    if extract_flag (reads i) flag = value then WaitResult.ok (i + 1)
    else if fuel = 0 then WaitResult.timedOut (i + 1)
    else ec_io_wait_go reads flag value (i + 1) fuel

/-- `ec_io_wait(port, flag, value)` (lines 56-77), abstracted over the
sequence of bytes the status port yields. -/
def ec_io_wait (reads : ℕ → ℕ) (flag value : ℕ) : WaitResult :=
  ec_io_wait_go reads flag value 0 100

/-- `calculate_fan_duty` (lines 103-105):
`int32_t(double(raw_duty) / 255.0 * 100.0)`.  The exact real value is
`raw_duty * 100 / 255`; for every `raw_duty` in `[0, 255]` the double
computation is within `3e-14` of that rational, whose distance to the
nearest integer is either `0` (at multiples of 51, where the doubles round
exactly to the integer) or at least `1/51`, so truncating the double equals
truncating the exact rational. -/
def calculate_fan_duty (raw_duty : ℤ) : ℤ :=
  Int.tdiv (raw_duty * 100) 255

/-- Decoder written from the spec's words, for comparison with
`calculate_fan_duty`: `dutyPercent(rawByte) = round(rawByte / 255 * 100)`,
with round-to-nearest realised as `⌊(200·raw + 255) / 510⌋`. -/
def dutyPercent_spec_round (raw : ℤ) : ℤ :=
  (200 * raw + 255) / 510

/-- `calculate_fan_rpms` (lines 107-110): combines the two raw bytes as
`(hi << 8) + lo` and returns `raw > 0 ? 2156220 / raw : 0`. -/
def calculate_fan_rpms (raw_rpm_high raw_rpm_low : ℤ) : ℤ :=
  let raw_rpm := raw_rpm_high * 256 + raw_rpm_low
  if raw_rpm > 0 then Int.tdiv 2156220 raw_rpm else 0

/-- The `allowed_duties` array of `identify_duty` (line 148). -/
def allowed_duties : List ℤ := [0, 16, 30, 40, 65, 90, 100]

/-- `identify_duty` (lines 147-161): first allowed duty `d` such that
`duty ∈ [d - 1, d + 1]` for nonzero `d`, or `duty = d` for `d = 0`
(the C conditional `d ? d - range : d`); the input itself if none matches. -/
def identify_duty (duty : ℤ) : ℤ :=
  match allowed_duties.find? (fun d =>
    let min_right : ℤ := if d ≠ 0 then d - 1 else d
    let max_right : ℤ := if d ≠ 0 then d + 1 else d
    decide (duty ≥ min_right ∧ duty ≤ max_right)) with
  | some d => d
  | none => duty

/-- The nested conditional assigning `new_duty` in `ec_auto_duty_adjust`
(lines 167-176), as a function of `temp_max` and the snapped `duty`. -/
def ec_table_duty (temp_max duty : ℤ) : ℤ :=
  if temp_max ≥ 85 ∧ duty < 65 then 65
  else if temp_max ≥ 75 ∧ duty < 40 then 40
  else if temp_max ≥ 65 ∧ duty < 30 then 30
  else if temp_max ≥ 55 ∧ duty < 17 then 17
  else if temp_max ≤ 50 then 0
  else if temp_max ≤ 60 ∧ duty ≥ 17 then 17
  else if temp_max ≤ 70 ∧ duty ≥ 30 then 30
  else if temp_max ≤ 80 ∧ duty ≥ 40 then 40
  else if temp_max ≤ 85 ∧ duty ≥ 65 then 65
  else -1

/-- `ec_auto_duty_adjust` (lines 163-187). -/
def ec_auto_duty_adjust (cpu_temp gpu_temp fan_duty : ℤ) : ℤ :=
  let temp_max := max cpu_temp gpu_temp
  let duty := identify_duty fan_duty
  let new_duty := ec_table_duty temp_max duty
  if new_duty > fan_duty then
    let new_duty_adj := duty + Int.tdiv (new_duty - fan_duty) 2
    if new_duty - new_duty_adj > 2 then new_duty_adj else new_duty
  else new_duty

/-- The mutable locals of `ec_worker` (line 193) that persist across loop
iterations: `cpu_temp`, `gpu_temp`, `fan_duty`, `auto_duty_val`. -/
structure LoopState where
  cpu_temp : ℤ
  gpu_temp : ℤ
  fan_duty : ℤ
  auto_duty_val : ℤ
deriving DecidableEq

/-- Outcome of the sysfs bulk read in one `ec_worker` iteration
(lines 195-214): `open` fails; `read` returns `-1`; `read` returns exactly
`0x100` bytes `buf`; or `read` returns some other length. -/
inductive ECRead where
  | openFail : ECRead
  | readErr : ECRead
  | okFull (buf : Fin 256 → ℤ) : ECRead
  | wrongSize (len : ℤ) : ECRead

/-- Observable effects of one `ec_worker` iteration: the state carried to
the next iteration, whether `open` succeeded, whether `close(io_fd)` ran,
the argument of `ec_write_fan_duty` if it was called, and whether the
iteration returned from `ec_worker` (ending the loop). -/
structure TickOutcome where
  st : LoopState
  fdOpened : Bool
  fdClosed : Bool
  ecWrite : Option ℤ
  fatal : Bool
deriving DecidableEq

/-- The `switch (len)` of `ec_worker` (lines 204-214) as it acts on the
loop state: a full 256-byte read decodes CPU temp (reg 0x07), GPU temp
(reg 0xCD) and fan duty (reg 0xCE); any other continuing outcome keeps the
previous values. -/
def tick_decoded (st : LoopState) (r : ECRead) : LoopState :=
  match r with
  | ECRead.okFull buf =>
    { st with
      cpu_temp := buf 0x07
      gpu_temp := buf 0xCD
      fan_duty := calculate_fan_duty (buf 0xCE) }
  | _ => st

/-- Lines 218-230 of `ec_worker`: run `ec_auto_duty_adjust` and, when
`(next_duty != -1 && next_duty != auto_duty_val) || (next_duty == 0 &&
fan_duty != 0)`, call `ec_write_fan_duty(next_duty)` and store it in
`auto_duty_val`. -/
def ec_worker_step (st : LoopState) : TickOutcome :=
  let next_duty := ec_auto_duty_adjust st.cpu_temp st.gpu_temp st.fan_duty
  if (next_duty ≠ -1 ∧ next_duty ≠ st.auto_duty_val) ∨
      (next_duty = 0 ∧ st.fan_duty ≠ 0) then
    ⟨{ st with auto_duty_val := next_duty }, true, true, some next_duty, false⟩
  else
    ⟨st, true, true, none, false⟩

/-- One iteration of the `ec_worker` loop (lines 194-233).  On open failure
the function returns `errc(errno)` before any handle exists; on a `read`
error (`len == -1`, line 205) it returns at line 206 *before* reaching
`close(io_fd)` at line 216, so the handle is left open; on the 256-byte and
wrong-size outcomes it falls through to `close` and the duty logic. -/
def ec_worker_tick (st : LoopState) (r : ECRead) : TickOutcome :=
  match r with
  | ECRead.openFail => ⟨st, false, false, none, true⟩
  | ECRead.readErr => ⟨st, true, false, none, true⟩
  | ECRead.okFull buf => ec_worker_step (tick_decoded st (ECRead.okFull buf))
  | ECRead.wrongSize len => ec_worker_step (tick_decoded st (ECRead.wrongSize len))

/-- Dispatch outcome of `ec_main` on an argument (lines 301-324), together
with `main`'s mapping of the returned `std::error_code` to an exit status
(line 335): `rejected e` means the argument was refused with exit status
`e`. -/
inductive ECMainOutcome where
  | rejected (exit_status : ℕ) : ECMainOutcome
  | runWorker : ECMainOutcome
  | setFan (duty : ℤ) : ECMainOutcome
deriving DecidableEq

/-- Lines 301-324 of `ec_main` plus line 335 of `main`.  `parsed` is the
result of `std::from_chars` on `args[1]`: `none` when it reports an error
(the argument is not an integer), `some val` otherwise.  When parsing
fails, `err` is nonzero and is returned, so `main` exits `EXIT_FAILURE`
(1); when parsing succeeds but `val < -1 || val > 100`, the code prints
"invalid fan duty" yet returns `err`, which is the *success* code, so
`main` exits `EXIT_SUCCESS` (0). -/
def ec_main_on_arg (parsed : Option ℤ) : ECMainOutcome :=
  match parsed with
  | none => ECMainOutcome.rejected 1
  | some val =>
    if val < -1 ∨ val > 100 then ECMainOutcome.rejected 0
    else if val = -1 then ECMainOutcome.runWorker
    else ECMainOutcome.setFan val

example : ec_main_on_arg (some 200) = ECMainOutcome.rejected 0 := by decide
example : ec_main_on_arg none = ECMainOutcome.rejected 1 := by decide
example : ec_worker_tick ⟨0, 0, 0, -1⟩ ECRead.readErr =
    ⟨⟨0, 0, 0, -1⟩, true, false, none, true⟩ := by decide
example : ec_auto_duty_adjust 52 0 0 = -1 := by decide

/-- The `new_duty` conditional can only select `-1`, `0`, `17`, `30`, `40`
or `65`. -/
lemma ec_table_duty_cases (t d : ℤ) :
    ec_table_duty t d = -1 ∨ ec_table_duty t d = 0 ∨ ec_table_duty t d = 17 ∨
    ec_table_duty t d = 30 ∨ ec_table_duty t d = 40 ∨ ec_table_duty t d = 65 := by
  unfold ec_table_duty
  split_ifs <;> omega

/-- `ec_auto_duty_adjust` returns either the table value or, exactly when
the table value exceeds `fan_duty` and differs from the adjusted value by
more than 2, the adjusted value `duty + (new_duty - fan_duty) / 2`. -/
lemma ec_auto_duty_adjust_cases (c g f : ℤ) :
    ec_auto_duty_adjust c g f = ec_table_duty (max c g) (identify_duty f) ∨
    (ec_table_duty (max c g) (identify_duty f) > f ∧
      ec_table_duty (max c g) (identify_duty f) -
        (identify_duty f +
          Int.tdiv (ec_table_duty (max c g) (identify_duty f) - f) 2) > 2 ∧
      ec_auto_duty_adjust c g f =
        identify_duty f +
          Int.tdiv (ec_table_duty (max c g) (identify_duty f) - f) 2) := by
  unfold ec_auto_duty_adjust
  dsimp only
  split_ifs with h1 h2
  · exact Or.inr ⟨h1, h2, rfl⟩
  · exact Or.inl rfl
  · exact Or.inl rfl

/-- C1 (amended): `ec_auto_duty_adjust` returns `-1` or one of the table
levels `{0, 17, 30, 40, 65}` or, when escalation smoothing fires, the
adjusted value `identify_duty fan_duty + (target - fan_duty) / 2`.  The
canonical-whitelist form of the claim fails (see the counterexample). -/
theorem auto_duty_adjust_range (c g f : ℤ) :
    ec_auto_duty_adjust c g f = -1 ∨ ec_auto_duty_adjust c g f = 0 ∨
    ec_auto_duty_adjust c g f = 17 ∨ ec_auto_duty_adjust c g f = 30 ∨
    ec_auto_duty_adjust c g f = 40 ∨ ec_auto_duty_adjust c g f = 65 ∨
    ec_auto_duty_adjust c g f =
      identify_duty f +
        Int.tdiv (ec_table_duty (max c g) (identify_duty f) - f) 2 := by
  rcases ec_auto_duty_adjust_cases c g f with h | ⟨-, -, h⟩
  · rcases ec_table_duty_cases (max c g) (identify_duty f) with ht | ht | ht | ht | ht | ht <;>
      rw [h, ht] <;> tauto
  · tauto

/-- C1 counterexample: at `cpu_temp = 58`, `gpu_temp = 0`,
`fan_duty = 16` the function returns `17`, which is neither `-1` nor a
member of the canonical whitelist `{0, 16, 30, 40, 65, 90, 100}`. -/
theorem auto_duty_adjust_not_canonical :
    ec_auto_duty_adjust 58 0 16 = 17 ∧
    ec_auto_duty_adjust 58 0 16 ∉ allowed_duties ∧
    ec_auto_duty_adjust 58 0 16 ≠ -1 := by
  decide

/-- C10: the automatic adjustment never commands a duty above 65; in
particular the canonical levels 90 and 100 are never returned. -/
theorem auto_duty_adjust_le_65 (c g f : ℤ) :
    ec_auto_duty_adjust c g f ≤ 65 := by
  rcases ec_auto_duty_adjust_cases c g f with h | ⟨h1, h2, h⟩ <;>
    rcases ec_table_duty_cases (max c g) (identify_duty f) with ht | ht | ht | ht | ht | ht <;>
    rw [h] <;> omega

/-- C2: smoothing applies exactly on escalation.  When the table target
exceeds `fan_duty`, the result is the adjusted value
`identify_duty fan_duty + (target - fan_duty) / 2` if it is more than 2
below the target, else the target itself; when the target does not exceed
`fan_duty` (de-escalation or no change) the target is returned unsmoothed.
Concretely, for `maxTemp = 90`, `currentDuty = 30` the result lies
strictly between 30 and 65 and closer to 30 than to 65, and for
`maxTemp = 45`, `currentDuty = 65` the result is exactly 0. -/
theorem auto_duty_adjust_smoothing :
    (∀ c g f : ℤ,
      (ec_table_duty (max c g) (identify_duty f) > f →
        ec_auto_duty_adjust c g f =
          if ec_table_duty (max c g) (identify_duty f) -
              (identify_duty f +
                Int.tdiv (ec_table_duty (max c g) (identify_duty f) - f) 2) > 2
          then identify_duty f +
            Int.tdiv (ec_table_duty (max c g) (identify_duty f) - f) 2
          else ec_table_duty (max c g) (identify_duty f)) ∧
      (¬ ec_table_duty (max c g) (identify_duty f) > f →
        ec_auto_duty_adjust c g f = ec_table_duty (max c g) (identify_duty f))) ∧
    30 < ec_auto_duty_adjust 90 0 30 ∧ ec_auto_duty_adjust 90 0 30 < 65 ∧
    ec_auto_duty_adjust 90 0 30 - 30 < 65 - ec_auto_duty_adjust 90 0 30 ∧
    ec_auto_duty_adjust 45 0 65 = 0 := by
  refine ⟨fun c g f => ⟨fun h => ?_, fun h => ?_⟩, by decide, by decide, by decide, by decide⟩
  · unfold ec_auto_duty_adjust
    rw [if_pos h]
  · unfold ec_auto_duty_adjust
    rw [if_neg h]

/-- Witness for C2: instantiating the smoothing characterisation at
`cpu_temp = 90`, `gpu_temp = 0`, `fan_duty = 30` (an escalation). -/
theorem auto_duty_adjust_smoothing_witness :
    ec_auto_duty_adjust 90 0 30 =
      if ec_table_duty (max 90 0) (identify_duty 30) -
          (identify_duty 30 +
            Int.tdiv (ec_table_duty (max 90 0) (identify_duty 30) - 30) 2) > 2
      then identify_duty 30 +
        Int.tdiv (ec_table_duty (max 90 0) (identify_duty 30) - 30) 2
      else ec_table_duty (max 90 0) (identify_duty 30) :=
  (auto_duty_adjust_smoothing.1 90 0 30).1 (by decide)

/-- C3 (amended): `identify_duty` returns a canonical level whenever the
input is `0` or within ±1 of a *nonzero* canonical level, and returns the
input unchanged otherwise; the tolerance around level 0 is 0, not ±1
(the C conditional `d ? d - range : d`).  `identify_duty 17 = 16` and
`identify_duty 45 = 45`. -/
theorem identify_duty_spec (x : ℤ) :
    ((x = 0 ∨ ∃ L ∈ allowed_duties, L ≠ 0 ∧ |x - L| ≤ 1) →
      identify_duty x ∈ allowed_duties) ∧
    ((¬(x = 0 ∨ ∃ L ∈ allowed_duties, L ≠ 0 ∧ |x - L| ≤ 1)) →
      identify_duty x = x) ∧
    identify_duty 17 = 16 ∧ identify_duty 45 = 45 := by
  refine ⟨?_, ?_, by decide, by decide⟩
  · intro h
    unfold identify_duty
    split
    · rename_i d hd
      exact List.mem_of_find?_eq_some hd
    · rename_i hn
      exfalso
      rw [List.find?_eq_none] at hn
      rcases h with h0 | ⟨L, hL, hL0, hw⟩
      · have := hn 0 (by decide)
        simp [h0] at this
      · have := hn L hL
        rw [abs_le] at hw
        simp only [hL0, if_true, ne_eq, not_false_iff, ite_true, ge_iff_le,
          Bool.not_eq_true, decide_eq_false_iff_not, not_and, not_le] at this
        omega
  · intro h
    push_neg at h
    obtain ⟨h0, hall⟩ := h
    unfold identify_duty
    split
    · rename_i d hd
      exfalso
      have hmem := List.mem_of_find?_eq_some hd
      have hp := List.find?_some hd
      have hnd := hall d hmem
      fin_cases hmem <;>
        simp only [ne_eq, not_false_iff, ite_true, ite_false, ge_iff_le,
          decide_eq_true_eq, not_true_eq_false, IsEmpty.forall_iff,
          not_false_eq_true, forall_true_left, abs_le, lt_abs, not_and,
          not_le] at hp hnd h0 <;>
        omega
    · rfl

/-- Witness for C3: `17` is within ±1 of the nonzero canonical level 16,
and the result `identify_duty 17` is a canonical level. -/
theorem identify_duty_spec_witness :
    identify_duty 17 ∈ allowed_duties :=
  (identify_duty_spec 17).1 (by decide)

/-- C3 counterexample: `1` is within ±1 of the canonical level `0`, yet
`identify_duty 1 = 1`, which is not a canonical level — the claim's
uniform ±1 tolerance does not hold around level 0. -/
theorem identify_duty_claim_false :
    (∃ L ∈ allowed_duties, |(1 : ℤ) - L| ≤ 1) ∧
    identify_duty 1 = 1 ∧ identify_duty 1 ∉ allowed_duties := by
  refine ⟨⟨0, by decide, by decide⟩, by decide, by decide⟩

/-- If some poll within the fuel budget matches, the loop returns success
right after the first matching poll. -/
lemma ec_io_wait_go_ok (reads : ℕ → ℕ) (flag value : ℕ) :
    ∀ fuel i k, k < fuel →
      extract_flag (reads (i + k)) flag = value →
      (∀ j, j < k → extract_flag (reads (i + j)) flag ≠ value) →
      ec_io_wait_go reads flag value i fuel = WaitResult.ok (i + k + 1) := by
  intro fuel
  induction fuel with
  | zero => intro i k hk; omega
  | succ n ih =>
    intro i k hk hmatch hbefore
    unfold ec_io_wait_go
    by_cases h0 : extract_flag (reads i) flag = value
    · have hk0 : k = 0 := by
        by_contra hne
        exact hbefore 0 (by omega) (by simpa using h0)
      rw [if_pos h0]
      subst hk0
      rfl
    · have hk0 : k ≠ 0 := by
        rintro rfl
        exact h0 (by simpa using hmatch)
      rw [if_neg h0, if_neg (by omega : ¬ n = 0)]
      have harith : i + 1 + (k - 1) = i + k := by omega
      have := ih (i + 1) (k - 1) (by omega) (by rw [harith]; exact hmatch)
        (fun j hj => by
          have := hbefore (j + 1) (by omega)
          rwa [show i + (j + 1) = i + 1 + j by omega] at this)
      rw [this, harith]

/-- If no poll within the fuel budget matches, the loop times out after
exactly `fuel` polls. -/
lemma ec_io_wait_go_timeout (reads : ℕ → ℕ) (flag value : ℕ) :
    ∀ fuel i, 0 < fuel →
      (∀ j, j < fuel → extract_flag (reads (i + j)) flag ≠ value) →
      ec_io_wait_go reads flag value i fuel = WaitResult.timedOut (i + fuel) := by
  intro fuel
  induction fuel with
  | zero => omega
  | succ n ih =>
    intro i _ hall
    unfold ec_io_wait_go
    rw [if_neg (by simpa using hall 0 (by omega))]
    rcases Nat.eq_zero_or_pos n with hn | hn
    · subst hn
      rw [if_pos rfl]
    · rw [if_neg (by omega : ¬ n = 0)]
      have := ih (i + 1) hn (fun j hj => by
        have := hall (j + 1) (by omega)
        rwa [show i + (j + 1) = i + 1 + j by omega] at this)
      rw [this, show i + 1 + n = i + (n + 1) by omega]

/-- The poll count the loop reports is bounded by the fuel budget. -/
lemma ec_io_wait_go_polls (reads : ℕ → ℕ) (flag value : ℕ) :
    ∀ fuel i p, 0 < fuel →
      (ec_io_wait_go reads flag value i fuel = WaitResult.ok p ∨
        ec_io_wait_go reads flag value i fuel = WaitResult.timedOut p) →
      i < p ∧ p ≤ i + fuel := by
  intro fuel
  induction fuel with
  | zero => omega
  | succ n ih =>
    intro i p _ hp
    unfold ec_io_wait_go at hp
    by_cases h0 : extract_flag (reads i) flag = value
    · rw [if_pos h0] at hp
      rcases hp with hp | hp
      · cases hp
        omega
      · cases hp
    · rw [if_neg h0] at hp
      rcases Nat.eq_zero_or_pos n with hn | hn
      · subst hn
        rw [if_pos rfl] at hp
        rcases hp with hp | hp
        · cases hp
        · cases hp
          omega
      · rw [if_neg (by omega : ¬ n = 0)] at hp
        have := ih (i + 1) p hn hp
        omega

/-- C6: `ec_io_wait` always terminates within the poll budget: it reports
success right after the first status read whose extracted flag bit equals
the expected value, reports a timeout after 100 unsuccessful polls when no
read among the first 100 matches, and in every case reads the status port
between 1 and 100 times. -/
theorem ec_io_wait_spec (reads : ℕ → ℕ) (flag value : ℕ) :
    ((∀ j, j < 100 → extract_flag (reads j) flag ≠ value) →
      ec_io_wait reads flag value = WaitResult.timedOut 100) ∧
    (∀ k, k < 100 → extract_flag (reads k) flag = value →
      (∀ j, j < k → extract_flag (reads j) flag ≠ value) →
      ec_io_wait reads flag value = WaitResult.ok (k + 1)) ∧
    (∀ p, (ec_io_wait reads flag value = WaitResult.ok p ∨
        ec_io_wait reads flag value = WaitResult.timedOut p) →
      1 ≤ p ∧ p ≤ 100) := by
  refine ⟨fun hall => ?_, fun k hk hm hb => ?_, fun p hp => ?_⟩
  · have := ec_io_wait_go_timeout reads flag value 100 0 (by omega)
      (fun j hj => by simpa using hall j hj)
    simpa [ec_io_wait] using this
  · have := ec_io_wait_go_ok reads flag value 100 0 k hk (by simpa using hm)
      (fun j hj => by simpa using hb j hj)
    simpa [ec_io_wait] using this
  · have := ec_io_wait_go_polls reads flag value 100 0 p (by omega)
      (by simpa [ec_io_wait] using hp)
    omega

/-- Witness for C6: with a port that first matches on its fourth read, the
wait succeeds after exactly 4 polls. -/
theorem ec_io_wait_spec_witness :
    ec_io_wait (fun i => if i = 3 then 2 else 0) 1 1 = WaitResult.ok 4 :=
  (ec_io_wait_spec (fun i => if i = 3 then 2 else 0) 1 1).2.1 3
    (by decide) (by decide) (by decide)

/-- C4 counterexample: the decoder truncates rather than rounds: at raw
byte 2 the code yields 0 while `round(2 / 255 * 100) = 1`. -/
theorem calculate_fan_duty_round_false :
    calculate_fan_duty 2 = 0 ∧ dutyPercent_spec_round 2 = 1 ∧
    calculate_fan_duty 2 ≠ dutyPercent_spec_round 2 := by
  decide

/-- C4 (amended): the decoder is `⌊rawByte · 100 / 255⌋` (truncation, not
rounding); it maps 0 to 0 and 255 to 100 and is monotone non-decreasing on
nonnegative raw bytes. -/
theorem calculate_fan_duty_spec :
    calculate_fan_duty 0 = 0 ∧ calculate_fan_duty 255 = 100 ∧
    (∀ r : ℤ, 0 ≤ r → calculate_fan_duty r = r * 100 / 255) ∧
    (∀ r1 r2 : ℤ, 0 ≤ r1 → r1 ≤ r2 →
      calculate_fan_duty r1 ≤ calculate_fan_duty r2) := by
  refine ⟨by decide, by decide, fun r hr => ?_, fun r1 r2 h0 h12 => ?_⟩
  · unfold calculate_fan_duty
    exact Int.tdiv_eq_ediv (by omega) (by omega)
  · unfold calculate_fan_duty
    rw [Int.tdiv_eq_ediv (by omega) (by omega), Int.tdiv_eq_ediv (by omega) (by omega)]
    exact Int.ediv_le_ediv (by omega) (by omega)

/-- Witness for C4: monotonicity instantiated at raw bytes 3 and 200. -/
theorem calculate_fan_duty_spec_witness :
    calculate_fan_duty 3 ≤ calculate_fan_duty 200 :=
  calculate_fan_duty_spec.2.2.2 3 200 (by decide) (by decide)

/-- C9 counterexample: the RPM decoder is not strictly decreasing in the
combined raw value: `255·256 + 254 < 255·256 + 255`, both positive, yet
both decode to 32 RPM. -/
theorem calculate_fan_rpms_strict_false :
    calculate_fan_rpms 255 254 = 32 ∧ calculate_fan_rpms 255 255 = 32 ∧
    (0 : ℤ) < 255 * 256 + 254 ∧ (255 * 256 + 254 : ℤ) < 255 * 256 + 255 := by
  decide

/-- C9 (amended): `rpm(0,0) = 0`; for positive combined raw value the
decoder is `⌊2156220 / combined⌋`; and it is monotone non-increasing (not
strictly decreasing) as the combined raw value grows. -/
theorem calculate_fan_rpms_spec :
    calculate_fan_rpms 0 0 = 0 ∧
    (∀ hi lo : ℤ, 0 < hi * 256 + lo →
      calculate_fan_rpms hi lo = 2156220 / (hi * 256 + lo)) ∧
    (∀ hi1 lo1 hi2 lo2 : ℤ, 0 < hi1 * 256 + lo1 →
      hi1 * 256 + lo1 ≤ hi2 * 256 + lo2 →
      calculate_fan_rpms hi2 lo2 ≤ calculate_fan_rpms hi1 lo1) := by
  refine ⟨by decide, fun hi lo hpos => ?_, fun hi1 lo1 hi2 lo2 hp1 h12 => ?_⟩
  · unfold calculate_fan_rpms
    dsimp only
    rw [if_pos hpos]
    exact Int.tdiv_eq_ediv (by omega) (by omega)
  · have hp2 : (0 : ℤ) < hi2 * 256 + lo2 := by omega
    unfold calculate_fan_rpms
    dsimp only
    rw [if_pos hp1, if_pos hp2]
    have e1 : hi1 * 256 + lo1 = ((hi1 * 256 + lo1).toNat : ℤ) :=
      (Int.toNat_of_nonneg (by omega)).symm
    have e2 : hi2 * 256 + lo2 = ((hi2 * 256 + lo2).toNat : ℤ) :=
      (Int.toNat_of_nonneg (by omega)).symm
    rw [e1, e2, show (2156220 : ℤ) = ((2156220 : ℕ) : ℤ) from rfl,
      ← Int.ofNat_tdiv, ← Int.ofNat_tdiv]
    exact_mod_cast Nat.div_le_div_left (by omega) (by omega)

/-- Witness for C9: the decoder at combined values 1000 and 2000. -/
theorem calculate_fan_rpms_spec_witness :
    calculate_fan_rpms 7 208 ≤ calculate_fan_rpms 3 232 :=
  calculate_fan_rpms_spec.2.2 3 232 7 208 (by decide) (by decide)

/-- When `ec_auto_duty_adjust` yields `-1`, the write condition of
`ec_worker` is false: no write happens and the state is untouched. -/
lemma ec_worker_step_minus_one (st : LoopState)
    (h : ec_auto_duty_adjust st.cpu_temp st.gpu_temp st.fan_duty = -1) :
    ec_worker_step st = ⟨st, true, true, none, false⟩ := by
  unfold ec_worker_step
  dsimp only
  rw [h]
  simp

/-- C5: on any tick whose `ec_auto_duty_adjust` result is `-1`, the loop
issues no `ec_write_fan_duty` call and `auto_duty_val` is unchanged. -/
theorem worker_tick_no_change_on_minus_one (st : LoopState) (r : ECRead)
    (h : ec_auto_duty_adjust (tick_decoded st r).cpu_temp
      (tick_decoded st r).gpu_temp (tick_decoded st r).fan_duty = -1) :
    (ec_worker_tick st r).ecWrite = none ∧
    (ec_worker_tick st r).st.auto_duty_val = st.auto_duty_val := by
  cases r with
  | openFail => exact ⟨rfl, rfl⟩
  | readErr => exact ⟨rfl, rfl⟩
  | okFull buf =>
    unfold ec_worker_tick
    dsimp only
    rw [ec_worker_step_minus_one _ h]
    exact ⟨rfl, rfl⟩
  | wrongSize len =>
    unfold ec_worker_tick
    dsimp only
    rw [ec_worker_step_minus_one _ h]
    exact ⟨rfl, rfl⟩

/-- Witness for C5: at CPU 52°C, GPU 0°C, duty 0 no rule matches (the
adjust result is `-1`), so a wrong-size tick writes nothing and keeps
`auto_duty_val = 5`. -/
theorem worker_tick_no_change_witness :
    (ec_worker_tick ⟨52, 0, 0, 5⟩ (ECRead.wrongSize 7)).ecWrite = none ∧
    (ec_worker_tick ⟨52, 0, 0, 5⟩ (ECRead.wrongSize 7)).st.auto_duty_val =
      (⟨52, 0, 0, 5⟩ : LoopState).auto_duty_val :=
  worker_tick_no_change_on_minus_one ⟨52, 0, 0, 5⟩ (ECRead.wrongSize 7) (by decide)

/-- `ec_worker_step` (reached only on the continuing paths) always follows
the `close(io_fd)` at line 216. -/
lemma ec_worker_step_closed (st : LoopState) :
    (ec_worker_step st).fdClosed = true ∧ (ec_worker_step st).fatal = false := by
  unfold ec_worker_step
  dsimp only
  split_ifs <;> exact ⟨rfl, rfl⟩

/-- C8 counterexample: on the read-error path (`read` returned `-1`) the
tick returns from `ec_worker` at line 206, before `close(io_fd)` at line
216: the handle was opened but is never closed. -/
theorem worker_tick_read_error_leaks_fd :
    (ec_worker_tick ⟨0, 0, 0, -1⟩ ECRead.readErr).fdOpened = true ∧
    (ec_worker_tick ⟨0, 0, 0, -1⟩ ECRead.readErr).fdClosed = false := by
  decide

/-- C8 (amended): on every tick that opens the sysfs interface, the handle
is closed before the tick ends on the successful-read and size-mismatch
paths; on the read-error path the worker returns without closing the
handle, but that return terminates the loop, so no handle ever survives
into a subsequent iteration. -/
theorem worker_tick_fd_scoped (st : LoopState) (buf : Fin 256 → ℤ) (len : ℤ) :
    (ec_worker_tick st (ECRead.okFull buf)).fdClosed = true ∧
    (ec_worker_tick st (ECRead.wrongSize len)).fdClosed = true ∧
    (ec_worker_tick st ECRead.readErr).fdClosed = false ∧
    (ec_worker_tick st ECRead.readErr).fatal = true := by
  exact ⟨(ec_worker_step_closed _).1, (ec_worker_step_closed _).1, rfl, rfl⟩

/-- C7: an argument that is not an integer is rejected with exit status 1,
but an integer outside `[-1, 100]` — e.g. `200` or `-2` — is printed as
"invalid fan duty" yet `ec_main` returns the *success* error code, so the
process exits with status 0, contradicting the nonzero-exit contract. -/
theorem ec_main_invalid_arg_exit :
    ec_main_on_arg none = ECMainOutcome.rejected 1 ∧
    ec_main_on_arg (some 200) = ECMainOutcome.rejected 0 ∧
    ec_main_on_arg (some (-2)) = ECMainOutcome.rejected 0 := by
  decide

end ClevoFan
